import Mathlib

/-!
# Verification of the inkdown-sync synchronization core

Shallow embedding of the note-synchronization backend:

* `Note` — the persisted document shape (`src/types/note.ts`, `Note` interface);
  timestamps are modelled as naturals (epoch milliseconds: JavaScript compares
  `Date` objects by their millisecond value).
* `SyncRequest` / `SyncResult` — the batch-sync item and per-item result shapes.
  Fields that are optional (or runtime-checked for JS truthiness despite a
  required static type) are `Option`s; a `none`, and for strings also `some ""`,
  is JS-falsy.
* `Oracle` — the injected `INoteRepository`.  Each repository call is resolved
  by the oracle at a call-time index `t : Nat`; the engine increments `t` once
  per repository call, so the final counter counts store interactions and a
  later `findById` may observe a different store state than an earlier one.
  A thrown repository error is an `Except.error` carrying the error message
  (`SyncService` inspects only `error.message`).
* The `SyncService` methods (`syncNotes`, `processSingleNote`, `createNewNote`,
  `handleExistingNote`, `updateNoteFromSync`, `createNote`, `updateNote`) are
  translated clause by clause from `src/services/SyncService.ts`, and
  `findByWorkspace` from `CouchNoteRepository`.
-/

namespace Inkdown

/-- A persisted note (`Note` interface): `_rev` is absent before the first
write; `deleted` defaults to `false` (`NoteModel` normalises an absent flag
to `false` before anything observes it). -/
structure Note where
  _id : String
  _rev : Option String
  title : String
  content : String
  key : String
  updated_at : Nat
  created_at : Nat
  workspace_id : String
  deleted : Bool
deriving Repr, DecidableEq

/-- A batch-sync item (`SyncRequest` interface).  `_id` and `updated_at` are
statically required in TypeScript but runtime-checked for truthiness, so they
are `Option`s here (`none` = absent; `some ""` is likewise JS-falsy for
`_id`). -/
structure SyncRequest where
  _id : Option String
  _rev : Option String
  title : Option String
  content : Option String
  key : Option String
  updated_at : Option Nat
  workspace_id : Option String
  deleted : Option Bool
deriving Repr, DecidableEq

/-- The `server_doc` payload of a conflict report: exactly the seven fields the
service copies out of the current server note (no `_id`, no `created_at`). -/
structure ServerDoc where
  _rev : Option String
  title : String
  content : String
  key : String
  updated_at : Nat
  workspace_id : String
  deleted : Bool
deriving Repr, DecidableEq

/-- A per-item sync result (`SyncResult` interface). -/
structure SyncResult where
  _id : Option String
  ok : Bool
  _rev : Option String
  conflict : Option Bool
  server_doc : Option ServerDoc
  error : Option String
deriving Repr, DecidableEq

/-- JS truthiness of an optional string: `undefined` and `""` are falsy. -/
def falsyStr : Option String → Bool
  | none => true
  | some s => s == ""

/-- `pat` is a prefix of `cs` (character lists). -/
def charsPrefix : List Char → List Char → Bool
  | [], _ => true
  | _ :: _, [] => false
  | p :: ps, c :: cs => p == c && charsPrefix ps cs

/-- `pat` occurs somewhere inside `cs` (character lists). -/
def charsContains : List Char → List Char → Bool
  | pat, [] => charsPrefix pat []
  | pat, c :: cs => charsPrefix pat (c :: cs) || charsContains pat cs

/-- `s.includes(pat)`: `pat` occurs as a contiguous substring of `s`. -/
def strIncludes (s pat : String) : Bool := charsContains pat.data s.data

/-- The `server_doc` built from a server note (the object literal repeated at
`SyncService.handleExistingNote` and `SyncService.updateNoteFromSync`). -/
def serverDocOf (n : Note) : ServerDoc :=
  { _rev := n._rev, title := n.title, content := n.content, key := n.key,
    updated_at := n.updated_at, workspace_id := n.workspace_id,
    deleted := n.deleted }

/-- The injected `INoteRepository`: each operation is resolved at a call-time
index.  `Except.error msg` models a thrown `Error` whose `message` is `msg`. -/
structure Oracle where
  findById : Nat → String → Except String (Option Note)
  create : Nat → Note → Except String Note
  update : Nat → Note → Except String Note
deriving Inhabited

/-- `new NoteModel({...}).toJSON()`: a falsy supplied id is replaced by the
generated id `fresh` (the `Date.now()`/`Math.random()` suffix is modelled as an
arbitrary parameter), `deleted` defaults to `false`, and
`created_at = updated_at = now`. -/
def noteModelNew (fresh : String) (now : Nat) (id : Option String)
    (rv : Option String) (title content key workspace_id : String)
    (deleted : Option Bool) : Note :=
  { _id := if falsyStr id then fresh else id.getD fresh
    _rev := rv
    title := title
    content := content
    key := key
    workspace_id := workspace_id
    deleted := deleted.getD false
    created_at := now
    updated_at := now }

/-- The note built by `SyncService.createNewNote`: a `NoteModel` from the
item's fields (with `deleted: syncRequest.deleted || false` and no `_rev`)
whose `updated_at` is then overridden with the client-supplied timestamp.
Callers guarantee `r._id` is truthy and `r.updated_at` is present
(`processSingleNote` validates both before dispatching here), so the `fresh`
id and the `getD 0` default are unreachable on real call paths. -/
def syncCreateNote (fresh : String) (now : Nat) (r : SyncRequest) : Note :=
  { noteModelNew fresh now r._id none (r.title.getD "") (r.content.getD "")
      (r.key.getD "") (r.workspace_id.getD "") (some (r.deleted.getD false)) with
    updated_at := r.updated_at.getD 0 }

/-- The merge step of `SyncService.updateNoteFromSync`: spread the existing
note, overwrite exactly the fields that are not `undefined` on the item
(`title`, `content`, `key`, `deleted`, `workspace_id`), then set `updated_at`
to the item's timestamp.  `_id`, `_rev` and `created_at` are never touched. -/
def mergeForSync (r : SyncRequest) (n : Note) : Note :=
  { n with
    title := r.title.getD n.title
    content := r.content.getD n.content
    key := r.key.getD n.key
    deleted := r.deleted.getD n.deleted
    workspace_id := r.workspace_id.getD n.workspace_id
    updated_at := r.updated_at.getD 0 }

/-- `SyncService.updateNoteFromSync`: write the merged note (carrying the
existing note's `_rev` as the concurrency token); on success report
`ok`/new revision/`conflict:false`; on an error whose message contains
`"conflict"` re-fetch the current note and report a conflict with its fields
as `server_doc` (absent when the re-fetch finds nothing); re-throw any other
error (and any error of the re-fetch itself). -/
def updateNoteFromSync (o : Oracle) (t : Nat) (r : SyncRequest) (n : Note) :
    Except String SyncResult × Nat :=
  match o.update t (mergeForSync r n) with
  | .ok saved =>
    (.ok { _id := some saved._id, ok := true, _rev := saved._rev,
           conflict := some false, server_doc := none, error := none }, t + 1)
  | .error msg =>
    if strIncludes msg "conflict" then
      match o.findById (t + 1) (r._id.getD "") with
      | .ok (some cur) =>
        (.ok { _id := r._id, ok := false, _rev := none, conflict := some true,
               server_doc := some (serverDocOf cur), error := none }, t + 2)
      | .ok none =>
        (.ok { _id := r._id, ok := false, _rev := none, conflict := some true,
               server_doc := none, error := none }, t + 2)
      | .error msg2 => (.error msg2, t + 2)
    else (.error msg, t + 1)

/-- The guard `syncRequest._rev && syncRequest._rev === existingNote._rev`:
the item carries a truthy (non-empty) revision token equal to the existing
note's current revision. -/
def revTokenMatch (r : SyncRequest) (n : Note) : Bool :=
  match r._rev with
  | none => false
  | some rv => !(rv == "") && (n._rev == some rv)

/-- `SyncService.handleExistingNote`: the conflict-resolution decision.
Matching revision token, or a strictly newer client timestamp, or an exact
timestamp tie → accept as update; strictly newer server timestamp →
conflict report carrying the existing note as `server_doc` (no store call). -/
def handleExistingNote (o : Oracle) (t : Nat) (r : SyncRequest) (n : Note) :
    Except String SyncResult × Nat :=
  if revTokenMatch r n then updateNoteFromSync o t r n
  else if n.updated_at < r.updated_at.getD 0 then updateNoteFromSync o t r n
  else if r.updated_at.getD 0 < n.updated_at then
    (.ok { _id := r._id, ok := false, _rev := none, conflict := some true,
           server_doc := some (serverDocOf n), error := none }, t)
  else updateNoteFromSync o t r n

/-- `SyncService.createNewNote`: reject (throw) when any of `title`,
`content`, `key`, `workspace_id` is falsy; otherwise persist the constructed
note via `create` and report its id and store-assigned revision. -/
def createNewNote (o : Oracle) (fresh : String) (now t : Nat)
    (r : SyncRequest) : Except String SyncResult × Nat :=
  if falsyStr r.title || falsyStr r.content || falsyStr r.key ||
      falsyStr r.workspace_id then
    (.error "Title, content, key, and workspace_id are required for new notes",
     t)
  else
    match o.create t (syncCreateNote fresh now r) with
    | .ok saved =>
      (.ok { _id := some saved._id, ok := true, _rev := saved._rev,
             conflict := some false, server_doc := none, error := none }, t + 1)
    | .error msg => (.error msg, t + 1)

/-- `SyncService.processSingleNote`: validate `_id` and `updated_at` before
any store call (the counter is returned unchanged on that failure), then
dispatch on whether `findById` finds an existing note. -/
def processSingleNote (o : Oracle) (fresh : String) (now t : Nat)
    (r : SyncRequest) : Except String SyncResult × Nat :=
  if falsyStr r._id || r.updated_at.isNone then
    (.error "Note ID and updated_at are required", t)
  else
    match o.findById t (r._id.getD "") with
    | .error msg => (.error msg, t + 1)
    | .ok none => createNewNote o fresh now (t + 1) r
    | .ok (some n) => handleExistingNote o (t + 1) r n

/-- The `catch` arm of `SyncService.syncNotes`: a thrown error becomes a
failed-item result carrying the item's `_id` and the error message. -/
def failedResult (r : SyncRequest) (msg : String) : SyncResult :=
  { _id := r._id, ok := false, _rev := none, conflict := none,
    server_doc := none, error := some msg }

/-- One iteration of the `syncNotes` loop body (the `try`/`catch` around
`processSingleNote`): the item's recorded result and the counter after it. -/
def itemResult (o : Oracle) (fresh : String) (now t : Nat) (r : SyncRequest) :
    SyncResult × Nat :=
  match processSingleNote o fresh now t r with
  | (.ok sr, t1) => (sr, t1)
  | (.error msg, t1) => (failedResult r msg, t1)

/-- `SyncService.syncNotes`: fold the loop over the batch, pushing one result
per item in input order. -/
def syncNotes (o : Oracle) (fresh : String) (now : Nat) :
    Nat → List SyncRequest → List SyncResult × Nat
  | t, [] => ([], t)
  | t, r :: rest =>
    ((itemResult o fresh now t r).1 ::
       (syncNotes o fresh now (itemResult o fresh now t r).2 rest).1,
     (syncNotes o fresh now (itemResult o fresh now t r).2 rest).2)

/-- `SyncService.createNote` (direct path): build a `NoteModel` with
`deleted: false` and persist it via `create`, returning the stored note. -/
def createNote (o : Oracle) (fresh : String) (now t : Nat) (id : Option String)
    (title content key workspace_id : String) : Except String Note × Nat :=
  match o.create t
      (noteModelNew fresh now id none title content key workspace_id
        (some false)) with
  | .ok saved => (.ok saved, t + 1)
  | .error msg => (.error msg, t + 1)

/-- The partial update body of the direct `updateNote` route
(`NotePutSchema`): every field optional. -/
structure NotePut where
  title : Option String
  content : Option String
  key : Option String
  workspace_id : Option String
  deleted : Option Bool
deriving Repr, DecidableEq

/-- The merge step of `SyncService.updateNote`: spread the existing note with
`updated_at = now` (server clock), then overwrite exactly the supplied
fields.  `_id`, `_rev` and `created_at` are never touched. -/
def mergeForPut (u : NotePut) (now : Nat) (n : Note) : Note :=
  { n with
    updated_at := now
    title := u.title.getD n.title
    content := u.content.getD n.content
    key := u.key.getD n.key
    workspace_id := u.workspace_id.getD n.workspace_id
    deleted := u.deleted.getD n.deleted }

/-- `SyncService.updateNote` (direct path): fetch, throw `NotFoundError` when
absent, merge the supplied fields, persist via `update`, return the stored
note. -/
def updateNote (o : Oracle) (now t : Nat) (id : String) (u : NotePut) :
    Except String Note × Nat :=
  match o.findById t id with
  | .error msg => (.error msg, t + 1)
  | .ok none => (.error ("Note with ID " ++ id ++ " not found"), t + 1)
  | .ok (some n) =>
    match o.update (t + 1) (mergeForPut u now n) with
    | .ok saved => (.ok saved, t + 2)
    | .error msg => (.error msg, t + 2)

/-- One row of the store's `_all_docs` answer consumed by
`CouchNoteRepository.findByWorkspace` (`row.doc` may be absent). -/
structure CouchRow where
  doc : Option Note
deriving Repr, DecidableEq

/-- `CouchNoteRepository.findByWorkspace`: keep exactly the rows whose
document exists, matches the workspace, and is not soft-deleted. -/
def findByWorkspace (rows : List CouchRow) (workspaceId : String) :
    List Note :=
  match rows with
  | [] => []
  | row :: rest =>
    match row.doc with
    | some d =>
      if d.workspace_id == workspaceId && !d.deleted then
        d :: findByWorkspace rest workspaceId
      else findByWorkspace rest workspaceId
    | none => findByWorkspace rest workspaceId

/-! ## Concrete fixtures for witnesses -/

/-- A benign store used by concrete witnesses: `findById` finds nothing,
`create` and `update` succeed and assign a fresh revision. -/
def emptyStore : Oracle :=
  { findById := fun _ _ => .ok none
    create := fun _ n => .ok { n with _rev := some "1-w" }
    update := fun _ n => .ok { n with _rev := some "2-w" } }

/-- A well-formed sync-create item used by concrete witnesses. -/
def reqCreate : SyncRequest :=
  { _id := some "note:1", _rev := none, title := some "T", content := some "C",
    key := some "a.md", updated_at := some 50, workspace_id := some "w1",
    deleted := none }

/-- An existing server note used by concrete witnesses. -/
def noteServer : Note :=
  { _id := "note:1", _rev := some "1-a", title := "S", content := "SC",
    key := "s.md", updated_at := 10, created_at := 5, workspace_id := "w1",
    deleted := false }

/-- A store whose writes are rejected with the CouchDB 409 message and whose
reads return `noteServer`, used by concrete witnesses. -/
def conflictStore : Oracle :=
  { findById := fun _ _ => .ok (some noteServer)
    create := fun _ n => .ok { n with _rev := some "1-w" }
    update := fun _ _ =>
      .error "Failed to update note: CouchDB Error: 409 - conflict" }

/-- A sync item with no `updated_at`, used by concrete witnesses. -/
def reqNoStamp : SyncRequest :=
  { _id := some "note:2", _rev := none, title := some "T2",
    content := some "C2", key := some "b.md", updated_at := none,
    workspace_id := some "w1", deleted := none }

/-! ## Shared helper lemmas -/

/-- The batch loop produces exactly one result per input item. -/
theorem syncNotes_fst_length (o : Oracle) (fresh : String) (now : Nat)
    (reqs : List SyncRequest) : ∀ t : Nat,
    ((syncNotes o fresh now t reqs).1).length = reqs.length := by
  induction reqs with
  | nil => intro t; rfl
  | cons r rest ih => intro t; simp [syncNotes, ih]

/-- The batch loop is compositional over list append. -/
theorem syncNotes_append (o : Oracle) (fresh : String) (now : Nat)
    (xs ys : List SyncRequest) : ∀ t : Nat,
    syncNotes o fresh now t (xs ++ ys) =
      ((syncNotes o fresh now t xs).1 ++
         (syncNotes o fresh now (syncNotes o fresh now t xs).2 ys).1,
       (syncNotes o fresh now (syncNotes o fresh now t xs).2 ys).2) := by
  induction xs with
  | nil => intro t; simp [syncNotes]
  | cons r rest ih => intro t; simp [syncNotes, ih]

/-! ## C1 — conflict-resolution decision -/

/-- **C1.** For an item whose id refers to an existing server note: a truthy
revision token equal to the server note's current revision is accepted as an
update; otherwise a strictly later client `updated_at` is accepted; otherwise
a strictly later server `updated_at` yields a conflict report (`ok=false`,
`conflict=true`, the server document as `server_doc`); otherwise (timestamps
exactly equal, revisions differing) the item is accepted as an update. -/
theorem handleExistingNote_decision (o : Oracle) (t : Nat) (r : SyncRequest)
    (n : Note) (cts : Nat) (h : r.updated_at = some cts) :
    (revTokenMatch r n = true →
      handleExistingNote o t r n = updateNoteFromSync o t r n) ∧
    (revTokenMatch r n = false → n.updated_at < cts →
      handleExistingNote o t r n = updateNoteFromSync o t r n) ∧
    (revTokenMatch r n = false → cts < n.updated_at →
      handleExistingNote o t r n =
        (.ok { _id := r._id, ok := false, _rev := none, conflict := some true,
               server_doc := some (serverDocOf n), error := none }, t)) ∧
    (revTokenMatch r n = false → cts = n.updated_at →
      handleExistingNote o t r n = updateNoteFromSync o t r n) := by
  refine ⟨?_, ?_, ?_, ?_⟩
  · intro h1; simp [handleExistingNote, h1]
  · intro h1 h2; simp [handleExistingNote, h, h1, h2]
  · intro h1 h2
    have h3 : ¬ n.updated_at < cts := by omega
    simp [handleExistingNote, h, h1, h2, h3]
  · intro h1 h2
    subst h2
    simp [handleExistingNote, h, h1]

/-- Witness for C1 at concrete inputs: a matching revision token is accepted
as an update even though the server timestamp is strictly newer. -/
theorem handleExistingNote_decision_witness :
    revTokenMatch
        { reqCreate with _rev := some "1-a", updated_at := some 3 }
        noteServer = true ∧
    handleExistingNote emptyStore 0
        { reqCreate with _rev := some "1-a", updated_at := some 3 }
        noteServer =
      updateNoteFromSync emptyStore 0
        { reqCreate with _rev := some "1-a", updated_at := some 3 }
        noteServer :=
  ⟨by decide,
   (handleExistingNote_decision emptyStore 0
       { reqCreate with _rev := some "1-a", updated_at := some 3 }
       noteServer 3 rfl).1 (by decide)⟩

/-! ## C2 — batch shape -/

/-- **C2.** `syncNotes` on `N` items returns exactly `N` per-item results;
the empty batch yields the empty report (not an error); and the report is
assembled in input order: the head item's recorded outcome is followed by the
outcomes of the remaining items. -/
theorem syncNotes_batch_shape (o : Oracle) (fresh : String) (now t : Nat)
    (reqs : List SyncRequest) (r : SyncRequest) :
    ((syncNotes o fresh now t reqs).1).length = reqs.length ∧
    syncNotes o fresh now t [] = ([], t) ∧
    (syncNotes o fresh now t (r :: reqs)).1 =
      (itemResult o fresh now t r).1 ::
        (syncNotes o fresh now (itemResult o fresh now t r).2 reqs).1 :=
  ⟨syncNotes_fst_length o fresh now reqs t, rfl, rfl⟩

/-! ## C7 — sync-update merge frame -/

/-- **C7.** On the accept-as-update path, exactly the fields present in the
item replace the corresponding fields of the existing note (an absent field
keeps the existing value — the `Option.getD` form states both directions),
`_id`, `_rev` and `created_at` are untouched, `updated_at` becomes the item's
timestamp, and the write hands the store a note carrying the existing note's
revision as concurrency token. -/
theorem mergeForSync_frame (o : Oracle) (t : Nat) (r : SyncRequest) (n : Note)
    (ts : Nat) (h : r.updated_at = some ts) :
    (mergeForSync r n)._id = n._id ∧
    (mergeForSync r n)._rev = n._rev ∧
    (mergeForSync r n).created_at = n.created_at ∧
    (mergeForSync r n).title = r.title.getD n.title ∧
    (mergeForSync r n).content = r.content.getD n.content ∧
    (mergeForSync r n).key = r.key.getD n.key ∧
    (mergeForSync r n).workspace_id = r.workspace_id.getD n.workspace_id ∧
    (mergeForSync r n).deleted = r.deleted.getD n.deleted ∧
    (mergeForSync r n).updated_at = ts ∧
    (∀ saved, o.update t (mergeForSync r n) = .ok saved →
      updateNoteFromSync o t r n =
        (.ok { _id := some saved._id, ok := true, _rev := saved._rev,
               conflict := some false, server_doc := none, error := none },
         t + 1)) := by
  refine ⟨rfl, rfl, rfl, rfl, rfl, rfl, rfl, rfl, ?_, ?_⟩
  · simp [mergeForSync, h]
  · intro saved hs
    simp [updateNoteFromSync, hs]

/-- Witness for C7 at concrete inputs: a title-only item replaces the title,
keeps every other field, stamps the client time, and carries the server
revision into the write. -/
theorem mergeForSync_frame_witness :
    (mergeForSync
        { _id := some "note:1", _rev := none, title := some "X",
          content := none, key := none, updated_at := some 99,
          workspace_id := none, deleted := none } noteServer)._rev =
      noteServer._rev ∧
    (mergeForSync
        { _id := some "note:1", _rev := none, title := some "X",
          content := none, key := none, updated_at := some 99,
          workspace_id := none, deleted := none } noteServer).content =
      noteServer.content :=
  ⟨((mergeForSync_frame emptyStore 0
      { _id := some "note:1", _rev := none, title := some "X",
        content := none, key := none, updated_at := some 99,
        workspace_id := none, deleted := none } noteServer 99 rfl).2.1),
   by
    have h := (mergeForSync_frame emptyStore 0
      { _id := some "note:1", _rev := none, title := some "X",
        content := none, key := none, updated_at := some 99,
        workspace_id := none, deleted := none } noteServer 99 rfl).2.2.2.2.1
    simpa using h⟩

/-! ## C8 — workspace listing filter -/

/-- **C8.** Every note returned by `findByWorkspace rows w` has
`workspace_id = w` and is not soft-deleted. -/
theorem findByWorkspace_members (rows : List CouchRow) (w : String) (n : Note)
    (h : n ∈ findByWorkspace rows w) :
    n.workspace_id = w ∧ n.deleted = false := by
  induction rows with
  | nil => simp [findByWorkspace] at h
  | cons row rest ih =>
    cases hd : row.doc with
    | none =>
      rw [findByWorkspace, hd] at h
      exact ih h
    | some d =>
      rw [findByWorkspace, hd] at h
      by_cases hc : (d.workspace_id == w && !d.deleted) = true
      · simp only [hc, if_true] at h
        rcases List.mem_cons.mp h with h1 | h1
        · subst h1
          simp only [Bool.and_eq_true, beq_iff_eq, Bool.not_eq_true'] at hc
          exact ⟨hc.1, hc.2⟩
        · exact ih h1
      · simp only [hc, if_false] at h
        exact ih h

/-- Witness for C8 at concrete inputs: the one live matching note in a mixed
row set satisfies the filter guarantees. -/
theorem findByWorkspace_members_witness :
    noteServer.workspace_id = "w1" ∧ noteServer.deleted = false :=
  findByWorkspace_members
    [⟨some { noteServer with _id := "note:9", workspace_id := "w2" }⟩,
     ⟨none⟩,
     ⟨some noteServer⟩,
     ⟨some { noteServer with _id := "note:8", deleted := true }⟩]
    "w1" noteServer (by decide)

/-! ## C9 — direct update -/

/-- **C9.** The direct `updateNote`: a missing note throws not-found; on an
existing note, exactly the supplied fields change (an unsupplied field keeps
its existing value), `updated_at` is set to the server clock `now`, `_id`,
`_rev` and `created_at` are untouched, and a successful store write returns
the stored note. -/
theorem updateNote_direct (o : Oracle) (now t : Nat) (id : String)
    (u : NotePut) :
    (o.findById t id = .ok none →
      updateNote o now t id u =
        (.error ("Note with ID " ++ id ++ " not found"), t + 1)) ∧
    (∀ n, o.findById t id = .ok (some n) →
      (mergeForPut u now n)._id = n._id ∧
      (mergeForPut u now n)._rev = n._rev ∧
      (mergeForPut u now n).created_at = n.created_at ∧
      (mergeForPut u now n).title = u.title.getD n.title ∧
      (mergeForPut u now n).content = u.content.getD n.content ∧
      (mergeForPut u now n).key = u.key.getD n.key ∧
      (mergeForPut u now n).workspace_id = u.workspace_id.getD n.workspace_id ∧
      (mergeForPut u now n).deleted = u.deleted.getD n.deleted ∧
      (mergeForPut u now n).updated_at = now ∧
      ∀ saved, o.update (t + 1) (mergeForPut u now n) = .ok saved →
        updateNote o now t id u = (.ok saved, t + 2)) := by
  constructor
  · intro h0
    simp [updateNote, h0]
  · intro n hn
    refine ⟨rfl, rfl, rfl, rfl, rfl, rfl, rfl, rfl, rfl, ?_⟩
    intro saved hs
    simp [updateNote, hn, hs]

/-- Witness for C9 at concrete inputs: updating an id the store does not hold
fails with the not-found message. -/
theorem updateNote_direct_witness :
    updateNote emptyStore 200 0 "note:zzz"
        { title := some "X", content := none, key := none,
          workspace_id := none, deleted := none } =
      (.error "Note with ID note:zzz not found", 1) :=
  (updateNote_direct emptyStore 200 0 "note:zzz"
      { title := some "X", content := none, key := none,
        workspace_id := none, deleted := none }).1 rfl

/-! ## C3 — store-conflict handling on the update path -/

/-- **C3.** When the store rejects the accept-as-update write: if the error
message reports a conflict (stale revision), the item's result is `ok=false`,
`conflict=true`, with the re-fetched current server document's seven fields
as `server_doc`; any other store error is re-thrown and the batch loop turns
it into a failed-item result carrying its message. -/
theorem updateNoteFromSync_storeErrors (o : Oracle) (t : Nat)
    (r : SyncRequest) (n : Note) (msg : String)
    (hup : o.update t (mergeForSync r n) = .error msg) :
    (strIncludes msg "conflict" = true →
      ∀ cur, o.findById (t + 1) (r._id.getD "") = .ok (some cur) →
        updateNoteFromSync o t r n =
          (.ok { _id := r._id, ok := false, _rev := none,
                 conflict := some true,
                 server_doc := some
                   { _rev := cur._rev, title := cur.title,
                     content := cur.content, key := cur.key,
                     updated_at := cur.updated_at,
                     workspace_id := cur.workspace_id,
                     deleted := cur.deleted },
                 error := none },
           t + 2)) ∧
    (strIncludes msg "conflict" = false →
      updateNoteFromSync o t r n = (.error msg, t + 1)) ∧
    (∀ fresh now t0 msg' t1,
      processSingleNote o fresh now t0 r = (.error msg', t1) →
      itemResult o fresh now t0 r = (failedResult r msg', t1) ∧
      (failedResult r msg').ok = false ∧
      (failedResult r msg').error = some msg') := by
  refine ⟨?_, ?_, ?_⟩
  · intro hc cur hf
    simp [updateNoteFromSync, hup, hc, hf, serverDocOf]
  · intro hc
    simp [updateNoteFromSync, hup, hc]
  · intro fresh now t0 msg' t1 hp
    exact ⟨by simp [itemResult, hp], rfl, rfl⟩

/-- Witness for C3 at concrete inputs: against a store that rejects the write
with the CouchDB 409 conflict message and re-serves `noteServer`, the item's
result is the conflict report carrying `noteServer`'s fields. -/
theorem updateNoteFromSync_storeErrors_witness :
    updateNoteFromSync conflictStore 0 reqCreate noteServer =
      (.ok { _id := some "note:1", ok := false, _rev := none,
             conflict := some true,
             server_doc := some
               { _rev := some "1-a", title := "S", content := "SC",
                 key := "s.md", updated_at := 10, workspace_id := "w1",
                 deleted := false },
             error := none },
       2) :=
  (updateNoteFromSync_storeErrors conflictStore 0 reqCreate noteServer
      "Failed to update note: CouchDB Error: 409 - conflict" rfl).1
    (by decide) noteServer rfl

/-! ## C5 — sync-create path -/

/-- **C5.** For an item whose id has no existing note (given the batch-level
validation already passed: truthy id, present timestamp): a falsy `title`,
`content`, `key` or `workspace_id` throws the explanatory error, which the
batch loop records as that item's failed result while the loop continues;
otherwise the persisted note is built from the supplied id, fields and
`deleted` flag (default `false`) with `updated_at` overridden by the client
timestamp, and a successful `create` yields a success result carrying the
stored id and store-assigned revision with `conflict=false` (a failing
`create` is re-thrown). -/
theorem createNewNote_spec (o : Oracle) (fresh : String) (now t : Nat)
    (r : SyncRequest) (i : String) (ts : Nat)
    (hid : r._id = some i) (hine : (i == "") = false)
    (hts : r.updated_at = some ts) :
    ((falsyStr r.title || falsyStr r.content || falsyStr r.key ||
        falsyStr r.workspace_id) = true →
      createNewNote o fresh now t r =
        (.error
           "Title, content, key, and workspace_id are required for new notes",
         t) ∧
      (o.findById t i = .ok none →
        itemResult o fresh now t r =
          (failedResult r
             "Title, content, key, and workspace_id are required for new notes",
           t + 1))) ∧
    ((falsyStr r.title || falsyStr r.content || falsyStr r.key ||
        falsyStr r.workspace_id) = false →
      syncCreateNote fresh now r =
        { _id := i, _rev := none, title := r.title.getD "",
          content := r.content.getD "", key := r.key.getD "",
          workspace_id := r.workspace_id.getD "",
          deleted := r.deleted.getD false, created_at := now,
          updated_at := ts } ∧
      (∀ saved, o.create t (syncCreateNote fresh now r) = .ok saved →
        createNewNote o fresh now t r =
          (.ok { _id := some saved._id, ok := true, _rev := saved._rev,
                 conflict := some false, server_doc := none, error := none },
           t + 1)) ∧
      (∀ msg, o.create t (syncCreateNote fresh now r) = .error msg →
        createNewNote o fresh now t r = (.error msg, t + 1))) := by
  have hfid : falsyStr r._id = false := by simp [falsyStr, hid, hine]
  have hcond : (falsyStr r._id || r.updated_at.isNone) = false := by
    simp [hfid, hts]
  constructor
  · intro hm
    refine ⟨by simp [createNewNote, hm], ?_⟩
    intro hfind
    have hget : r._id.getD "" = i := by simp [hid]
    simp [itemResult, processSingleNote, hcond, hget, hfind, createNewNote,
      hm, failedResult]
  · intro hm
    refine ⟨?_, ?_, ?_⟩
    · simp [syncCreateNote, noteModelNew, hid, hts, falsyStr, hine]
    · intro saved hs
      simp [createNewNote, hm, hs]
    · intro msg hs
      simp [createNewNote, hm, hs]

/-- Witness for C5 at concrete inputs: the well-formed creation item is
persisted against the empty store and reported created with the
store-assigned revision. -/
theorem createNewNote_spec_witness :
    createNewNote emptyStore "g" 100 0 reqCreate =
      (.ok { _id := some "note:1", ok := true, _rev := some "1-w",
             conflict := some false, server_doc := none, error := none },
       1) :=
  ((createNewNote_spec emptyStore "g" 100 0 reqCreate "note:1" 50 rfl
        (by decide) rfl).2 (by decide)).2.1
    { syncCreateNote "g" 100 reqCreate with _rev := some "1-w" } rfl

/-! ## C6 — item-level validation of id and timestamp -/

/-- **C6.** An item with a falsy id or no `updated_at` fails before any store
call (the repository call counter is returned unchanged), and in any batch it
alone is recorded as a failed result with the descriptive message while the
items before and after it are processed exactly as they would be without
it. -/
theorem processSingleNote_validation (o : Oracle) (fresh : String)
    (now t : Nat) (r : SyncRequest)
    (h : falsyStr r._id = true ∨ r.updated_at = none) :
    processSingleNote o fresh now t r =
      (.error "Note ID and updated_at are required", t) ∧
    ∀ pre post,
      syncNotes o fresh now t (pre ++ r :: post) =
        ((syncNotes o fresh now t pre).1 ++
           failedResult r "Note ID and updated_at are required" ::
             (syncNotes o fresh now (syncNotes o fresh now t pre).2 post).1,
         (syncNotes o fresh now (syncNotes o fresh now t pre).2 post).2) := by
  have hcond : (falsyStr r._id || r.updated_at.isNone) = true := by
    rcases h with h | h
    · simp [h]
    · simp [h]
  have hps : processSingleNote o fresh now t r =
      (.error "Note ID and updated_at are required", t) := by
    simp [processSingleNote, hcond]
  refine ⟨hps, ?_⟩
  intro pre post
  rw [syncNotes_append]
  have hitem : ∀ t1, itemResult o fresh now t1 r =
      (failedResult r "Note ID and updated_at are required", t1) := by
    intro t1
    simp [itemResult, processSingleNote, hcond]
  simp [syncNotes, hitem]

/-- Witness for C6 at concrete inputs: a batch of a good creation item, an
item missing `updated_at`, and another good item yields exactly the middle
result failed and the neighbours processed. -/
theorem processSingleNote_validation_witness :
    processSingleNote emptyStore "g" 100 0 reqNoStamp =
      (.error "Note ID and updated_at are required", 0) ∧
    syncNotes emptyStore "g" 100 0 [reqCreate, reqNoStamp, reqCreate] =
      ((syncNotes emptyStore "g" 100 0 [reqCreate]).1 ++
         failedResult reqNoStamp "Note ID and updated_at are required" ::
           (syncNotes emptyStore "g" 100
              (syncNotes emptyStore "g" 100 0 [reqCreate]).2
              [reqCreate]).1,
       (syncNotes emptyStore "g" 100
          (syncNotes emptyStore "g" 100 0 [reqCreate]).2 [reqCreate]).2) :=
  ⟨(processSingleNote_validation emptyStore "g" 100 0 reqNoStamp
      (Or.inr rfl)).1,
   (processSingleNote_validation emptyStore "g" 100 0 reqNoStamp
      (Or.inr rfl)).2 [reqCreate] [reqCreate]⟩

/-! ## Id preservation through every outcome path -/

/-- Helper: a successful accept-as-update result names the item's id,
provided the store returns written notes under the id they were written
with. -/
theorem updateNoteFromSync_ok_id (o : Oracle)
    (Hup : ∀ u m m', o.update u m = .ok m' → m'._id = m._id)
    (t : Nat) (r : SyncRequest) (n : Note) (i : String)
    (hri : r._id = some i) (hn : n._id = i) :
    ∀ sr t', updateNoteFromSync o t r n = (.ok sr, t') → sr._id = r._id := by
  intro sr t' h
  cases hu : o.update t (mergeForSync r n) with
  | ok saved =>
    simp only [updateNoteFromSync, hu, Prod.mk.injEq, Except.ok.injEq] at h
    obtain ⟨h1, -⟩ := h
    rw [← h1]
    have h2 := Hup t (mergeForSync r n) saved hu
    simp [h2, mergeForSync, hn, hri]
  | error msg =>
    simp only [updateNoteFromSync, hu] at h
    by_cases hc : strIncludes msg "conflict" = true
    · rw [if_pos hc] at h
      cases hf : o.findById (t + 1) (r._id.getD "") with
      | ok ov =>
        cases ov with
        | none =>
          simp only [hf, Prod.mk.injEq, Except.ok.injEq] at h
          obtain ⟨h1, -⟩ := h
          rw [← h1]
        | some cur =>
          simp only [hf, Prod.mk.injEq, Except.ok.injEq] at h
          obtain ⟨h1, -⟩ := h
          rw [← h1]
      | error msg2 =>
        simp only [hf, Prod.mk.injEq] at h
        exact absurd h.1 (by simp)
    · rw [if_neg hc] at h
      rw [Prod.mk.injEq] at h
      exact absurd h.1 (by simp)

/-- Helper: a successful result of `handleExistingNote` names the item's
id. -/
theorem handleExistingNote_ok_id (o : Oracle)
    (Hup : ∀ u m m', o.update u m = .ok m' → m'._id = m._id)
    (t : Nat) (r : SyncRequest) (n : Note) (i : String)
    (hri : r._id = some i) (hn : n._id = i) :
    ∀ sr t', handleExistingNote o t r n = (.ok sr, t') → sr._id = r._id := by
  intro sr t' h
  rw [handleExistingNote] at h
  split at h
  · exact updateNoteFromSync_ok_id o Hup t r n i hri hn sr t' h
  · split at h
    · exact updateNoteFromSync_ok_id o Hup t r n i hri hn sr t' h
    · split at h
      · simp only [Prod.mk.injEq, Except.ok.injEq] at h
        obtain ⟨h1, -⟩ := h
        rw [← h1]
      · exact updateNoteFromSync_ok_id o Hup t r n i hri hn sr t' h

/-- Helper: a successful sync-create result names the item's id. -/
theorem createNewNote_ok_id (o : Oracle)
    (Hcr : ∀ u m m', o.create u m = .ok m' → m'._id = m._id)
    (fresh : String) (now t : Nat) (r : SyncRequest) (i : String)
    (hri : r._id = some i) (hine : (i == "") = false) :
    ∀ sr t', createNewNote o fresh now t r = (.ok sr, t') → sr._id = r._id := by
  intro sr t' h
  rw [createNewNote] at h
  split at h
  · rw [Prod.mk.injEq] at h
    exact absurd h.1 (by simp)
  · cases hc : o.create t (syncCreateNote fresh now r) with
    | ok saved =>
      simp only [hc, Prod.mk.injEq, Except.ok.injEq] at h
      obtain ⟨h1, -⟩ := h
      rw [← h1]
      have h2 := Hcr t (syncCreateNote fresh now r) saved hc
      simp [h2, syncCreateNote, noteModelNew, falsyStr, hri, hine]
    | error msg =>
      simp only [hc, Prod.mk.injEq] at h
      exact absurd h.1 (by simp)

/-- Helper: a successful per-item result names the item's id, provided the
store answers reads under the requested id and writes under the written
id. -/
theorem processSingleNote_ok_id (o : Oracle)
    (Hid : ∀ u id n, o.findById u id = .ok (some n) → n._id = id)
    (Hcr : ∀ u m m', o.create u m = .ok m' → m'._id = m._id)
    (Hup : ∀ u m m', o.update u m = .ok m' → m'._id = m._id)
    (fresh : String) (now t : Nat) (r : SyncRequest) :
    ∀ sr t', processSingleNote o fresh now t r = (.ok sr, t') →
      sr._id = r._id := by
  intro sr t' h
  rw [processSingleNote] at h
  split at h
  · rw [Prod.mk.injEq] at h
    exact absurd h.1 (by simp)
  · rename_i hcond
    rw [Bool.or_eq_true] at hcond
    push_neg at hcond
    obtain ⟨hc1, hc2⟩ := hcond
    obtain ⟨i, hri, hine⟩ : ∃ i, r._id = some i ∧ (i == "") = false := by
      cases hr : r._id with
      | none => rw [hr] at hc1; exact absurd rfl hc1
      | some j =>
        refine ⟨j, rfl, ?_⟩
        rw [hr] at hc1
        simpa [falsyStr] using hc1
    have hget : r._id.getD "" = i := by simp [hri]
    rw [hget] at h
    cases hf : o.findById t i with
    | error msg =>
      simp only [hf, Prod.mk.injEq] at h
      exact absurd h.1 (by simp)
    | ok ov =>
      cases ov with
      | none =>
        simp only [hf] at h
        exact createNewNote_ok_id o Hcr fresh now (t + 1) r i hri hine sr t' h
      | some n =>
        simp only [hf] at h
        have hn : n._id = i := Hid t i n hf
        exact handleExistingNote_ok_id o Hup (t + 1) r n i hri hn sr t' h

/-- Helper: the recorded result of one loop iteration always carries the
item's own `_id`. -/
theorem itemResult_id (o : Oracle)
    (Hid : ∀ u id n, o.findById u id = .ok (some n) → n._id = id)
    (Hcr : ∀ u m m', o.create u m = .ok m' → m'._id = m._id)
    (Hup : ∀ u m m', o.update u m = .ok m' → m'._id = m._id)
    (fresh : String) (now t : Nat) (r : SyncRequest) :
    ((itemResult o fresh now t r).1)._id = r._id := by
  cases hp : processSingleNote o fresh now t r with
  | mk res t1 =>
    cases res with
    | ok sr =>
      have := processSingleNote_ok_id o Hid Hcr Hup fresh now t r sr t1 hp
      simpa [itemResult, hp] using this
    | error msg =>
      simp [itemResult, hp, failedResult]

/-- Helper: the report's ids are the batch's ids, in order. -/
theorem syncNotes_map_id (o : Oracle)
    (Hid : ∀ u id n, o.findById u id = .ok (some n) → n._id = id)
    (Hcr : ∀ u m m', o.create u m = .ok m' → m'._id = m._id)
    (Hup : ∀ u m m', o.update u m = .ok m' → m'._id = m._id)
    (fresh : String) (now : Nat) (reqs : List SyncRequest) : ∀ t : Nat,
    ((syncNotes o fresh now t reqs).1).map (fun x => x._id) =
      reqs.map (fun x => x._id) := by
  induction reqs with
  | nil => intro t; rfl
  | cons r rest ih =>
    intro t
    simp [syncNotes, ih, itemResult_id o Hid Hcr Hup fresh now t r]

/-! ## C10 — per-index id alignment -/

/-- **C10.** For every batch and index `i`, the `_id` of the `i`-th result
equals the `_id` of the `i`-th input item on every outcome path, assuming the
store returns documents under the id they were requested or written with. -/
theorem syncNotes_ids_aligned (o : Oracle) (fresh : String) (now t : Nat)
    (reqs : List SyncRequest)
    (Hid : ∀ u id n, o.findById u id = .ok (some n) → n._id = id)
    (Hcr : ∀ u m m', o.create u m = .ok m' → m'._id = m._id)
    (Hup : ∀ u m m', o.update u m = .ok m' → m'._id = m._id)
    (i : Nat) :
    (((syncNotes o fresh now t reqs).1)[i]?).map (fun x => x._id) =
      (reqs[i]?).map (fun x => x._id) := by
  rw [← List.getElem?_map, ← List.getElem?_map,
    syncNotes_map_id o Hid Hcr Hup fresh now reqs t]

/-- Witness for C10 at concrete inputs: both indices of a two-item batch
(one created, one failing validation) keep their ids. -/
theorem syncNotes_ids_aligned_witness :
    ((((syncNotes emptyStore "g" 100 0 [reqCreate, reqNoStamp]).1)[0]?).map
        (fun x => x._id) =
      (([reqCreate, reqNoStamp] : List SyncRequest)[0]?).map
        (fun x => x._id)) := by
  have h1 : ∀ u id n, emptyStore.findById u id = .ok (some n) → n._id = id := by
    intro u id n h
    simp [emptyStore] at h
  have h2 : ∀ u m m', emptyStore.create u m = .ok m' → m'._id = m._id := by
    intro u m m' h
    simp only [emptyStore, Except.ok.injEq] at h
    rw [← h]
  have h3 : ∀ u m m', emptyStore.update u m = .ok m' → m'._id = m._id := by
    intro u m m' h
    simp only [emptyStore, Except.ok.injEq] at h
    rw [← h]
  exact syncNotes_ids_aligned emptyStore "g" 100 0 [reqCreate, reqNoStamp]
    h1 h2 h3 0

/-! ## C4 — timestamp invariants (corrected) -/

/-- **C4 counterexample.** A sync-create item whose client timestamp (50)
precedes the server clock (100) is accepted (`ok = true`) and the engine
persists `syncCreateNote "g" 100 reqCreate`, which has `created_at = 100` but
`updated_at = 50`: the claimed invariant `updated_at ≥ created_at` fails for
a note produced by a engine operation. -/
theorem syncCreate_timestamps_counterexample :
    (syncNotes emptyStore "g" 100 0 [reqCreate]).1 =
      [{ _id := some "note:1", ok := true, _rev := some "1-w",
         conflict := some false, server_doc := none, error := none }] ∧
    (syncCreateNote "g" 100 reqCreate).created_at = 100 ∧
    (syncCreateNote "g" 100 reqCreate).updated_at = 50 ∧
    ¬ (syncCreateNote "g" 100 reqCreate).created_at ≤
        (syncCreateNote "g" 100 reqCreate).updated_at := by
  refine ⟨by decide, rfl, rfl, by decide⟩

/-- **C4 amended.** `created_at` is never changed after it is first set by
any engine operation (both merge paths preserve it, both creation paths set
it to the creation-time clock); the direct create path sets
`updated_at = created_at`, and the direct update path sets `updated_at` to
the server clock; but the sync paths override `updated_at` with the
client-supplied timestamp, which may precede `created_at`, so
`updated_at ≥ created_at` holds only where the server clock is the
authority. -/
theorem created_at_immutable_amended (r : SyncRequest) (n : Note) (u : NotePut)
    (fresh ttl cnt ky ws : String) (now : Nat) (oid : Option String) :
    (mergeForSync r n).created_at = n.created_at ∧
    (mergeForPut u now n).created_at = n.created_at ∧
    (noteModelNew fresh now oid none ttl cnt ky ws (some false)).created_at
      = now ∧
    (noteModelNew fresh now oid none ttl cnt ky ws (some false)).updated_at
      = (noteModelNew fresh now oid none ttl cnt ky ws (some false)).created_at ∧
    (mergeForPut u now n).updated_at = now ∧
    (syncCreateNote fresh now r).created_at = now ∧
    (syncCreateNote fresh now r).updated_at = r.updated_at.getD 0 :=
  ⟨rfl, rfl, rfl, rfl, rfl, rfl, rfl⟩

end Inkdown
